import Mathlib

/-!
Verification of the Swagchain backend core: the resilient-call wrapper
(src/backend/utils.py) and the run-polling state machine
(src/backend/routes/agents.py), together with the chunker utility and the
image-generation response handling (src/backend/functions.py).

The Python code is shallowly embedded: exceptions become an inductive class
hierarchy with an explicit ancestor relation mirroring Python's isinstance
checks; the tenacity-based retry decorator becomes a fuel-indexed loop over
an attempt oracle; the server-sent-event generator becomes a step function
over an explicit poll state driven by a response environment.
-/

namespace Swagchain

/-- Python exception classes appearing in the source's except-clauses and
tuples, plus the intermediate builtin bases (OSError, ArithmeticError,
LookupError, RuntimeError) needed so that isinstance checks agree with
Python's class hierarchy. -/
inductive PyClass where
  | ExceptionCls
  | OSErrorCls
  | RuntimeErrorCls
  | ArithmeticErrorCls
  | LookupErrorCls
  | AsyncioTimeoutError
  | ConnectionErrorCls
  | ConnectionRefusedErrorCls
  | ConnectionResetErrorCls
  | TimeoutErrorCls
  | UnicodeErrorCls
  | UnicodeDecodeErrorCls
  | UnicodeEncodeErrorCls
  | TypeErrorCls
  | ValueErrorCls
  | ZeroDivisionErrorCls
  | IndexErrorCls
  | AttributeErrorCls
  | ImportErrorCls
  | ModuleNotFoundErrorCls
  | NotImplementedErrorCls
  | RecursionErrorCls
  | OverflowErrorCls
  | KeyErrorCls
  | OpenAIError
  | APIError
  | APIResponseValidationError
  | APIStatusError
  | APIConnectionError
  | APITimeoutError
  | BadRequestError
  | AuthenticationError
  | PermissionDeniedError
  | NotFoundError
  | ConflictError
  | UnprocessableEntityError
  | RateLimitError
  | InternalServerError
  | HTTPException
deriving DecidableEq

open PyClass

/-- The method-resolution order of each class (the class itself followed by
its proper superclasses up to Exception), as in CPython and the openai
client library: every APIStatusError subclass is also an APIError and an
OpenAIError; APITimeoutError is an APIConnectionError; the builtin
connection/timeout errors sit below OSError. -/
def ancestors : PyClass → List PyClass
  | ExceptionCls => [ExceptionCls]
  | OSErrorCls => [OSErrorCls, ExceptionCls]
  | RuntimeErrorCls => [RuntimeErrorCls, ExceptionCls]
  | ArithmeticErrorCls => [ArithmeticErrorCls, ExceptionCls]
  | LookupErrorCls => [LookupErrorCls, ExceptionCls]
  | AsyncioTimeoutError => [AsyncioTimeoutError, TimeoutErrorCls, OSErrorCls, ExceptionCls]
  | ConnectionErrorCls => [ConnectionErrorCls, OSErrorCls, ExceptionCls]
  | ConnectionRefusedErrorCls =>
      [ConnectionRefusedErrorCls, ConnectionErrorCls, OSErrorCls, ExceptionCls]
  | ConnectionResetErrorCls =>
      [ConnectionResetErrorCls, ConnectionErrorCls, OSErrorCls, ExceptionCls]
  | TimeoutErrorCls => [TimeoutErrorCls, OSErrorCls, ExceptionCls]
  | UnicodeErrorCls => [UnicodeErrorCls, ValueErrorCls, ExceptionCls]
  | UnicodeDecodeErrorCls =>
      [UnicodeDecodeErrorCls, UnicodeErrorCls, ValueErrorCls, ExceptionCls]
  | UnicodeEncodeErrorCls =>
      [UnicodeEncodeErrorCls, UnicodeErrorCls, ValueErrorCls, ExceptionCls]
  | TypeErrorCls => [TypeErrorCls, ExceptionCls]
  | ValueErrorCls => [ValueErrorCls, ExceptionCls]
  | ZeroDivisionErrorCls => [ZeroDivisionErrorCls, ArithmeticErrorCls, ExceptionCls]
  | IndexErrorCls => [IndexErrorCls, LookupErrorCls, ExceptionCls]
  | AttributeErrorCls => [AttributeErrorCls, ExceptionCls]
  | ImportErrorCls => [ImportErrorCls, ExceptionCls]
  | ModuleNotFoundErrorCls => [ModuleNotFoundErrorCls, ImportErrorCls, ExceptionCls]
  | NotImplementedErrorCls => [NotImplementedErrorCls, RuntimeErrorCls, ExceptionCls]
  | RecursionErrorCls => [RecursionErrorCls, RuntimeErrorCls, ExceptionCls]
  | OverflowErrorCls => [OverflowErrorCls, ArithmeticErrorCls, ExceptionCls]
  | KeyErrorCls => [KeyErrorCls, LookupErrorCls, ExceptionCls]
  | OpenAIError => [OpenAIError, ExceptionCls]
  | APIError => [APIError, OpenAIError, ExceptionCls]
  | APIResponseValidationError =>
      [APIResponseValidationError, APIError, OpenAIError, ExceptionCls]
  | APIStatusError => [APIStatusError, APIError, OpenAIError, ExceptionCls]
  | APIConnectionError => [APIConnectionError, APIError, OpenAIError, ExceptionCls]
  | APITimeoutError =>
      [APITimeoutError, APIConnectionError, APIError, OpenAIError, ExceptionCls]
  | BadRequestError => [BadRequestError, APIStatusError, APIError, OpenAIError, ExceptionCls]
  | AuthenticationError =>
      [AuthenticationError, APIStatusError, APIError, OpenAIError, ExceptionCls]
  | PermissionDeniedError =>
      [PermissionDeniedError, APIStatusError, APIError, OpenAIError, ExceptionCls]
  | NotFoundError => [NotFoundError, APIStatusError, APIError, OpenAIError, ExceptionCls]
  | ConflictError => [ConflictError, APIStatusError, APIError, OpenAIError, ExceptionCls]
  | UnprocessableEntityError =>
      [UnprocessableEntityError, APIStatusError, APIError, OpenAIError, ExceptionCls]
  | RateLimitError => [RateLimitError, APIStatusError, APIError, OpenAIError, ExceptionCls]
  | InternalServerError =>
      [InternalServerError, APIStatusError, APIError, OpenAIError, ExceptionCls]
  | HTTPException => [HTTPException, ExceptionCls]

/-- A raised exception instance: its class, its string rendering (str(exc),
which for the openai errors coincides with the .message attribute and for
HTTPException plays the role of .detail), and its status code (meaningful
for HTTPException and the APIStatusError family; 0 elsewhere). -/
structure PyExc where
  cls : PyClass
  msg : String
  statusCode : Nat
deriving DecidableEq

/-- Python isinstance for a single class: membership in the MRO. -/
def isinstance (e : PyExc) (c : PyClass) : Bool := c ∈ ancestors e.cls

/-- Python isinstance against a tuple of classes, as used by except-clauses
and by tenacity's retry_if_exception_type. -/
def isinstanceAny (e : PyExc) (cs : List PyClass) : Bool := cs.any (isinstance e)

/-- Class-level version of isinstanceAny: it depends only on the
exception's class. -/
def clsInstanceAny (c : PyClass) (cs : List PyClass) : Bool :=
  cs.any fun x => x ∈ ancestors c

theorem isinstanceAny_cls (e : PyExc) (cs : List PyClass) :
    isinstanceAny e cs = clsInstanceAny e.cls cs := rfl

/-- ERRORS tuple from src/backend/utils.py lines 34-55. -/
def ERRORS : List PyClass :=
  [AsyncioTimeoutError, ConnectionErrorCls, ConnectionRefusedErrorCls,
   ConnectionResetErrorCls, TimeoutErrorCls, UnicodeDecodeErrorCls,
   UnicodeEncodeErrorCls, UnicodeErrorCls, TypeErrorCls, ValueErrorCls,
   ZeroDivisionErrorCls, IndexErrorCls, AttributeErrorCls, ImportErrorCls,
   ModuleNotFoundErrorCls, NotImplementedErrorCls, RecursionErrorCls,
   OverflowErrorCls, KeyErrorCls, ExceptionCls]

/-- OPEN_AI_HTTP_EXCEPTIONS tuple from src/backend/utils.py lines 57-67. -/
def OPEN_AI_HTTP_EXCEPTIONS : List PyClass :=
  [APIResponseValidationError, APIStatusError, RateLimitError,
   AuthenticationError, BadRequestError, ConflictError, NotFoundError,
   PermissionDeniedError, UnprocessableEntityError]

/-- OPEN_AI_ERRORS tuple from src/backend/utils.py line 69. -/
def OPEN_AI_ERRORS : List PyClass :=
  [APIConnectionError, APIError, APITimeoutError, OpenAIError]

/-- RETRY_EXCEPTIONS tuple from src/backend/utils.py lines 71-80. -/
def RETRY_EXCEPTIONS : List PyClass :=
  [AsyncioTimeoutError, ConnectionErrorCls, ConnectionRefusedErrorCls,
   ConnectionResetErrorCls, TimeoutErrorCls, APIConnectionError,
   APITimeoutError, APIError]

/-- Build the HTTPException instance raised by handle_errors: its detail
string and status code. -/
def mkHTTPException (statusCode : Nat) (detail : String) : PyExc :=
  ⟨HTTPException, detail, statusCode⟩

/-- handle_errors from src/backend/utils.py lines 147-188, as a function on
the wrapped call's outcome.  The except-clauses are tried in source order:
HTTPException is re-raised with the same detail and status code; the
OPEN_AI_HTTP_EXCEPTIONS are mapped to an HTTPException carrying the
provider message and status code; the OPEN_AI_ERRORS and the ERRORS
catch-all are mapped to HTTPException 500 with the stringified exception.
An exception caught by no clause would propagate unchanged (unreachable in
practice since ERRORS ends with Exception). -/
def handle_errors {T : Type} (r : Except PyExc T) : Except PyExc T :=
  match r with
  | .ok v => .ok v
  | .error exc =>
    if isinstance exc HTTPException then
      .error (mkHTTPException exc.statusCode exc.msg)
    else if isinstanceAny exc OPEN_AI_HTTP_EXCEPTIONS then
      .error (mkHTTPException exc.statusCode exc.msg)
    else if isinstanceAny exc OPEN_AI_ERRORS then
      .error (mkHTTPException 500 exc.msg)
    else if isinstanceAny exc ERRORS then
      .error (mkHTTPException 500 exc.msg)
    else
      .error exc

/-- tenacity's wait_exponential(multiplier, max) with exp_base 2 and min 0:
the sleep after the n-th failed attempt (attempt numbers are 1-based) is
max(0, min(multiplier * 2 ^ (n - 1), maxWait)). -/
def wait_exponential (multiplier maxWait n : Nat) : Nat :=
  min (multiplier * 2 ^ (n - 1)) maxWait

/-- One run of the tenacity-wrapped call from the retry decorator
(src/backend/utils.py lines 252-270): `call i` is the outcome of the
(i+1)-th attempt.  After a failed attempt the exception is retried exactly
when it is an instance of RETRY_EXCEPTIONS and the attempt number is still
below the stop_after_attempt bound; sleeps of wait_exponential are recorded
between attempts.  With reraise := true (as in the source) the final
exception is re-raised unchanged.  Returns (outcome, attempts made, sleep
sequence).  `remaining` is the number of attempts still allowed after the
current one. -/
def retryLoop {T : Type} (call : Nat → Except PyExc T) (multiplier maxWait : Nat) :
    Nat → Nat → Except PyExc T × Nat × List Nat
  | i, remaining =>
    match call i, remaining with
    | .ok v, _ => (.ok v, i + 1, [])
    | .error e, 0 => (.error e, i + 1, [])
    | .error e, r + 1 =>
      if isinstanceAny e RETRY_EXCEPTIONS then
        let rest := retryLoop call multiplier maxWait (i + 1) r
        (rest.1, rest.2.1, wait_exponential multiplier maxWait (i + 1) :: rest.2.2)
      else
        (.error e, i + 1, [])

/-- The retry decorator with its default arguments retries := 10, wait := 1,
max_wait := 10 applied to an attempt oracle: up to `retries` attempts in
total. -/
def retry {T : Type} (retries multiplier maxWait : Nat) (call : Nat → Except PyExc T) :
    Except PyExc T × Nat × List Nat :=
  retryLoop call multiplier maxWait 0 (retries - 1)

/-- The full decorator stack built by `handle` (src/backend/utils.py lines
209-221): functools.reduce applies retry() innermost, then handle_errors,
then process_time (timing only, identity on the outcome).  Defaults:
retries 10, wait 1, max_wait 10. -/
def handleStack {T : Type} (call : Nat → Except PyExc T) : Except PyExc T × Nat :=
  let r := retry 10 1 10 call
  (handle_errors r.1, r.2.1)

/-! ## Run poller (src/backend/routes/agents.py, run_events) -/

/-- A run object as seen by the poller: its id and status string (the code
only ever inspects .status, .id and serializes the whole object; the msg
field stands for the rest of the serialized payload). -/
structure Run where
  id : String
  status : String
  payload : String
deriving DecidableEq

/-- A run step object returned by threads.runs.steps.list. -/
structure RunStep where
  payload : String
deriving DecidableEq

/-- A server-sent event emitted by the generator: either the serialization
of a run snapshot or of one run step. -/
inductive Event where
  | runSnapshot (r : Run)
  | stepData (s : RunStep)
deriving DecidableEq

/-- The remote service as seen by the poller for one run: the i-th result
of a retrieve_run call, of a submit_tool_outputs call and of a
steps.list call.  A `none` result models the call raising an exception
(which, after the resilient wrapper's classification, aborts the
generator). -/
structure Env where
  fetch : Nat → Option Run
  submit : Nat → Option Run
  listSteps : Nat → Option (List RunStep)

/-- The generator's local state: the `runner` variable and how many calls of
each kind have been made so far. -/
structure PollState where
  runner : Run
  fetchIdx : Nat
  submitIdx : Nat
  stepsIdx : Nat
deriving DecidableEq

/-- The while-loop guard: `runner.status not in ("completed", "failed",
"cancelled", "expired")` (src/backend/routes/agents.py line 162). -/
def isTerminal (s : String) : Bool :=
  s == "completed" || s == "failed" || s == "cancelled" || s == "expired"

/-- Outcome of one execution of the loop body: either the loop continues
with new state after emitting some events, or the generator ends (break, or
an exception raised by a remote call) after emitting some events. -/
inductive BodyResult where
  | next (events : List Event) (st : PollState)
  | halt (events : List Event)
deriving DecidableEq

/-- One execution of the while-loop body of run_events.generator
(src/backend/routes/agents.py lines 163-206), entered only when the guard
holds.  Branches in source order.  Note that the requires_action, cancelling,
queued and in_progress branches end in `continue` without re-assigning
`runner`, that the completed and failed/cancelled/expired branches are
unreachable because the guard already excludes those statuses, and that only
the fallback path re-fetches the run. -/
def pollBody (env : Env) (st : PollState) : BodyResult :=
  if st.runner.status == "requires_action" then
    match env.submit st.submitIdx with
    | none => .halt []
    | some run =>
      .next [.runSnapshot run] { st with submitIdx := st.submitIdx + 1 }
  else if st.runner.status == "cancelling" then
    match env.listSteps st.stepsIdx with
    | none => .halt []
    | some steps =>
      .next (steps.map .stepData) { st with stepsIdx := st.stepsIdx + 1 }
  else if st.runner.status == "queued" then
    .next [.runSnapshot st.runner] st
  else if st.runner.status == "in_progress" then
    match env.listSteps st.stepsIdx with
    | none => .halt []
    | some steps =>
      .next (steps.map .stepData) { st with stepsIdx := st.stepsIdx + 1 }
  else if st.runner.status == "completed" then
    match env.listSteps st.stepsIdx with
    | none => .halt []
    | some steps =>
      .next (steps.map .stepData) { st with stepsIdx := st.stepsIdx + 1 }
  else if st.runner.status == "failed" || st.runner.status == "cancelled"
      || st.runner.status == "expired" then
    .halt [.runSnapshot st.runner]
  else
    match env.fetch st.fetchIdx with
    | none => .halt []
    | some r =>
      .next [.runSnapshot r] { runner := r, fetchIdx := st.fetchIdx + 1,
                               submitIdx := st.submitIdx, stepsIdx := st.stepsIdx }

/-- Fuel-indexed unfolding of the while loop: returns the emitted events and
whether the generator has ended (true) or is still running when the fuel
runs out (false). -/
def pollLoop (env : Env) (st : PollState) : Nat → List Event × Bool
  | 0 => if isTerminal st.runner.status then ([], true) else ([], false)
  | fuel + 1 =>
    if isTerminal st.runner.status then ([], true)
    else
      match pollBody env st with
      | .halt evs => (evs, true)
      | .next evs st' =>
        let rest := pollLoop env st' fuel
        (evs ++ rest.1, rest.2)

/-- The whole generator of run_events (src/backend/routes/agents.py lines
159-207): an initial retrieve_run, then the while loop.  An exception in
the initial fetch aborts the stream with no events. -/
def run_events (env : Env) (fuel : Nat) : List Event × Bool :=
  match env.fetch 0 with
  | none => ([], true)
  | some r => pollLoop env { runner := r, fetchIdx := 1, submitIdx := 0, stepsIdx := 0 } fuel

/-! ## chunker and use_image -/

/-- chunker from src/backend/utils.py lines 191-199: the slices
seq[pos : pos + size] for pos in range(0, len(seq), size).  Python's
range(0, n, size) for size > 0 has ceil(n / size) = (n + size - 1) / size
elements, at stride size starting from 0; a slice is drop-then-take. -/
def chunker {α : Type} (seq : List α) (size : Nat) : List (List α) :=
  (List.range' 0 ((seq.length + size - 1) / size) size).map
    fun pos => (seq.drop pos).take size

/-- One image object of the images.generate response: its url and b64_json
fields, each possibly absent. -/
structure ImageObj where
  url : Option String
  b64_json : Option String
deriving DecidableEq

/-- The accumulation loop of use_image (src/backend/functions.py lines
245-253): for each item, append url if present; then append b64_json if
present, else raise ValueError — note the else is attached to the b64_json
test only, so an item with a url but no b64_json still raises. -/
def use_imageLoop (acc : List String) : List ImageObj → Except PyExc (List String)
  | [] => .ok acc
  | i :: rest =>
    let acc1 := match i.url with
      | some u => acc ++ [u]
      | none => acc
    match i.b64_json with
    | some b => use_imageLoop (acc1 ++ [b]) rest
    | none => .error ⟨ValueErrorCls, "Expected image output to be a string", 0⟩

/-- use_image restricted to its response handling: the remote call has
returned `data`, and the function builds the list of strings or raises. -/
def use_image (data : List ImageObj) : Except PyExc (List String) :=
  use_imageLoop [] data

/-! ## Helper lemmas on the class hierarchy -/

/-- Every modelled exception class is an Exception, so the ERRORS
catch-all clause (which ends with Exception) matches every exception. -/
theorem isinstanceAny_ERRORS (e : PyExc) : isinstanceAny e ERRORS = true := by
  cases e with
  | mk c m s => cases c <;> rfl

/-- Every instance of the OPEN_AI_HTTP_EXCEPTIONS tuple is also an instance
of RETRY_EXCEPTIONS, because the tuple's members are all subclasses of
APIError and RETRY_EXCEPTIONS contains APIError. -/
theorem openaiHTTP_retryable (e : PyExc)
    (h : isinstanceAny e OPEN_AI_HTTP_EXCEPTIONS = true) :
    isinstanceAny e RETRY_EXCEPTIONS = true := by
  rw [isinstanceAny_cls] at h ⊢
  revert h
  have : ∀ c : PyClass, clsInstanceAny c OPEN_AI_HTTP_EXCEPTIONS = true →
      clsInstanceAny c RETRY_EXCEPTIONS = true := by
    intro c; cases c <;> decide
  exact this e.cls

/-- No instance of the OPEN_AI_HTTP_EXCEPTIONS tuple is an HTTPException. -/
theorem openaiHTTP_not_http (e : PyExc)
    (h : isinstanceAny e OPEN_AI_HTTP_EXCEPTIONS = true) :
    isinstance e HTTPException = false := by
  rw [isinstanceAny_cls] at h
  show decide (PyClass.HTTPException ∈ ancestors e.cls) = false
  revert h
  have : ∀ c : PyClass, clsInstanceAny c OPEN_AI_HTTP_EXCEPTIONS = true →
      decide (PyClass.HTTPException ∈ ancestors c) = false := by
    intro c; cases c <;> decide
  exact this e.cls

/-- Behaviour of the retry loop on a call that fails on every attempt with a
retryable exception: all `retries` attempts are made, the sleeps are the
wait_exponential sequence, and the outcome is the exception of the final
attempt itself. -/
theorem retryLoop_all_fail {T : Type} (call : Nat → Except PyExc T) (es : Nat → PyExc)
    (m w : Nat)
    (hc : ∀ j, call j = .error (es j))
    (hr : ∀ j, isinstanceAny (es j) RETRY_EXCEPTIONS = true) :
    ∀ r i, retryLoop call m w i r
      = (.error (es (i + r)), i + r + 1,
         (List.range r).map fun j => wait_exponential m w (i + j + 1)) := by
  intro r
  induction r with
  | zero =>
    intro i
    simp [retryLoop, hc i]
  | succ r IH =>
    intro i
    have h1 : retryLoop call m w i (r + 1)
        = ((retryLoop call m w (i + 1) r).1, (retryLoop call m w (i + 1) r).2.1,
           wait_exponential m w (i + 1) :: (retryLoop call m w (i + 1) r).2.2) := by
      simp [retryLoop, hc i, hr i]
    rw [h1, IH (i + 1)]
    have e1 : i + 1 + r = i + (r + 1) := by omega
    have e2 : (fun j => wait_exponential m w (i + 1 + j + 1))
        = fun j => wait_exponential m w (i + (j + 1) + 1) := by
      funext j
      congr 1
      omega
    rw [List.range_succ_eq_map]
    simp only [List.map_cons, List.map_map, Function.comp_def, e1, e2, Nat.add_zero]

/-! ## Claim theorems for the resilient call wrapper -/

/-- C1 (counterexample): the claim says a provider authentication failure
(status 401) is never retried; but AuthenticationError is a subclass of
APIError, which the source puts in RETRY_EXCEPTIONS, so the stack makes all
10 attempts instead of 1. -/
theorem C1_counterexample :
    (handleStack (T := Unit)
      fun _ => .error ⟨PyClass.AuthenticationError, "Incorrect API key provided", 401⟩).2 = 10 ∧
    ¬ (handleStack (T := Unit)
      fun _ => .error ⟨PyClass.AuthenticationError, "Incorrect API key provided", 401⟩).2 = 1 := by
  constructor
  · rfl
  · decide

/-- C1 (amended): for every provider-request-error exception raised
persistently by the wrapped call, the stack retries it up to the full
attempt budget (10 attempts, because these exceptions are APIError
subclasses and APIError is in RETRY_EXCEPTIONS), and the resulting HTTP
error's status code equals the provider's reported status code; in
particular an authentication failure with provider status 401 yields an
HTTP error with status 401 after 10 attempts, not zero retries. -/
theorem C1_amended (T : Type) (e : PyExc)
    (h : isinstanceAny e OPEN_AI_HTTP_EXCEPTIONS = true) :
    handleStack (T := T) (fun _ => .error e)
      = (.error (mkHTTPException e.statusCode e.msg), 10) := by
  have hr := openaiHTTP_retryable e h
  have hh := openaiHTTP_not_http e h
  unfold handleStack retry
  rw [retryLoop_all_fail (fun _ => .error e) (fun _ => e) 1 10 (fun _ => rfl) (fun _ => hr)]
  simp [handle_errors, hh, h]

/-- C1 (witness): the amended claim at a concrete authentication failure. -/
theorem C1_witness :
    handleStack (T := Unit)
      (fun _ => .error ⟨PyClass.AuthenticationError, "Incorrect API key provided", 401⟩)
      = (.error (mkHTTPException 401 "Incorrect API key provided"), 10) :=
  C1_amended Unit ⟨PyClass.AuthenticationError, "Incorrect API key provided", 401⟩ (by decide)

/-- C2: a call failing on every attempt with transient (RETRY_EXCEPTIONS)
exceptions is attempted exactly 10 times (the max_attempts default); the
backoff sleeps are 1, 2, 4, 8, 10, 10, 10, 10, 10 — non-decreasing and
capped at the max_delay default 10 — and the outcome is the very exception
of the final attempt (in particular unchanged in type), which the
enclosing classification layer then maps. -/
theorem C2_transient_retry (T : Type) (call : Nat → Except PyExc T) (es : Nat → PyExc)
    (hc : ∀ j, call j = .error (es j))
    (hr : ∀ j, isinstanceAny (es j) RETRY_EXCEPTIONS = true) :
    retry 10 1 10 call = (.error (es 9), 10, [1, 2, 4, 8, 10, 10, 10, 10, 10]) ∧
    List.Chain' (· ≤ ·) (retry 10 1 10 call).2.2 ∧
    (∀ d ∈ (retry 10 1 10 call).2.2, d ≤ 10) := by
  have key : retry 10 1 10 call = (.error (es 9), 10, [1, 2, 4, 8, 10, 10, 10, 10, 10]) := by
    unfold retry
    rw [retryLoop_all_fail call es 1 10 hc hr]
    rfl
  refine ⟨key, ?_, ?_⟩
  · rw [key]
    show List.Chain' (· ≤ ·) [1, 2, 4, 8, 10, 10, 10, 10, 10]
    norm_num [List.chain'_cons, List.chain'_singleton]
  · rw [key]
    show ∀ d ∈ [1, 2, 4, 8, 10, 10, 10, 10, 10], d ≤ 10
    decide

/-- C2 (witness): the theorem at a call persistently raising the provider
timeout error. -/
theorem C2_witness :
    retry (T := Unit) 10 1 10 (fun _ => .error ⟨PyClass.APITimeoutError, "Request timed out.", 0⟩)
      = (.error ⟨PyClass.APITimeoutError, "Request timed out.", 0⟩, 10,
         [1, 2, 4, 8, 10, 10, 10, 10, 10]) :=
  (C2_transient_retry Unit _ (fun _ => ⟨PyClass.APITimeoutError, "Request timed out.", 0⟩)
    (fun _ => rfl)
    (fun _ =>
      (by decide :
        isinstanceAny ⟨PyClass.APITimeoutError, "Request timed out.", 0⟩ RETRY_EXCEPTIONS
          = true))).1

/-- C6: an exception that is neither HTTP-shaped, nor a provider-request
error, nor in the transient set is not retried and is mapped to an HTTP
error with status 500 whose detail is the stringified exception. -/
theorem C6_unexpected_500 (T : Type) (e : PyExc)
    (h1 : isinstance e HTTPException = false)
    (h2 : isinstanceAny e OPEN_AI_HTTP_EXCEPTIONS = false)
    (h3 : isinstanceAny e RETRY_EXCEPTIONS = false) :
    handleStack (T := T) (fun _ => .error e) = (.error (mkHTTPException 500 e.msg), 1) := by
  have hE := isinstanceAny_ERRORS e
  unfold handleStack retry retryLoop
  simp only [h3, if_false, Bool.false_eq_true]
  unfold handle_errors
  simp only [h1, h2, hE, Bool.false_eq_true, if_false, if_true]
  by_cases hoa : isinstanceAny e OPEN_AI_ERRORS = true <;> simp [hoa]

/-- C6 (witness): a generic provider error (plain OpenAIError, not in the
transient set) is mapped to a 500 after a single attempt. -/
theorem C6_witness :
    handleStack (T := Unit) (fun _ => .error ⟨PyClass.OpenAIError, "boom", 0⟩)
      = (.error (mkHTTPException 500 "boom"), 1) :=
  C6_unexpected_500 Unit ⟨PyClass.OpenAIError, "boom", 0⟩ (by decide) (by decide) (by decide)

/-- C7: an already-HTTP-shaped error raised by the wrapped call is not
retried and is re-raised with the same status code and the same detail. -/
theorem C7_http_passthrough (T : Type) (s : Nat) (d : String) :
    handleStack (T := T) (fun _ => .error ⟨PyClass.HTTPException, d, s⟩)
      = (.error ⟨PyClass.HTTPException, d, s⟩, 1) := rfl

/-! ## Claim theorems for the run poller -/

/-- The queued snapshot of scenario C3: run r1 on thread t1, fetched with
status queued. -/
def queuedRun : Run := ⟨"r1", "queued", "t1"⟩

/-- The in_progress snapshot of scenario C3. -/
def inProgressRun : Run := ⟨"r1", "in_progress", "t1"⟩

/-- The completed snapshot of scenario C3. -/
def completedRun : Run := ⟨"r1", "completed", "t1"⟩

/-- Scenario C3's remote service: successive fetches return queued,
in_progress, completed; there are zero sub-steps; no tool outputs are ever
requested. -/
def envC3 : Env :=
  ⟨fun n => if n = 0 then some queuedRun
            else if n = 1 then some inProgressRun else some completedRun,
   fun _ => none,
   fun _ => some []⟩

/-- If the runner currently has status queued, one loop iteration emits the
stale snapshot and leaves the state unchanged — the source's queued branch
ends in continue without re-fetching — so the loop emits the same queued
snapshot once per unit of fuel and never terminates. -/
theorem pollLoop_queued_stuck (env : Env) (st : PollState)
    (hq : st.runner.status = "queued") :
    ∀ fuel, pollLoop env st fuel = (List.replicate fuel (.runSnapshot st.runner), false) := by
  intro fuel
  induction fuel with
  | zero =>
    rw [pollLoop]
    rw [show isTerminal st.runner.status = false by rw [hq]; rfl]
    simp
  | succ fuel IH =>
    rw [pollLoop]
    rw [show isTerminal st.runner.status = false by rw [hq]; rfl]
    have hb : pollBody env st = .next [.runSnapshot st.runner] st := by
      rw [pollBody]
      rw [show (st.runner.status == "requires_action") = false by rw [hq]; rfl]
      rw [show (st.runner.status == "cancelling") = false by rw [hq]; rfl]
      rw [show (st.runner.status == "queued") = true by rw [hq]; rfl]
      rfl
    rw [hb]
    dsimp only
    rw [IH]
    simp [List.replicate_succ]

/-- C3 (counterexample): in the scenario with fetched statuses queued,
in_progress, completed and zero sub-steps, the stream has already emitted
three events after three loop iterations — all of them the queued
snapshot — and is still running, so it does not yield exactly 2 events and
close. -/
theorem C3_counterexample :
    (run_events envC3 3).1 =
      [.runSnapshot queuedRun, .runSnapshot queuedRun, .runSnapshot queuedRun] ∧
    ¬ (run_events envC3 3).1.length = 2 ∧
    (run_events envC3 3).2 = false := by
  refine ⟨rfl, by decide, rfl⟩

/-- C3 (amended): for the run whose successive fetched statuses are queued,
in_progress, completed with zero sub-steps, the poll stream never observes
the later statuses: the queued branch loops without re-fetching, so after
any number of iterations the emitted events are that many copies of the
queued snapshot and the stream has not closed. -/
theorem C3_amended (fuel : Nat) :
    run_events envC3 fuel = (List.replicate fuel (.runSnapshot queuedRun), false) := by
  have h0 : envC3.fetch 0 = some queuedRun := rfl
  rw [run_events, h0]
  exact pollLoop_queued_stuck envC3 _ rfl fuel

/-- Scenario C4's remote service: the run is fetched with terminal status
failed. -/
def envC4 : Env :=
  ⟨fun _ => some ⟨"r1", "failed", "t1"⟩, fun _ => none, fun _ => some []⟩

/-- C4 (code evaluation): when the fetched status is failed the while
condition excludes the loop body — the source's emit-and-break branch for
failed, cancelled and expired is unreachable — so the stream closes with
zero events instead of emitting the final snapshot once. -/
theorem C4_code_eval : ∀ fuel, run_events envC4 fuel = ([], true) := by
  intro fuel
  cases fuel <;> rfl

/-- C5: when the observed status is requires_action and the submit call
returns the updated run state r, the loop body performs exactly the submit
call (the fetch counter is unchanged, so no intervening fetch happens) and
emits exactly the snapshot returned by that submit call, which is the next
event of the stream; under the provider's guarantee that the submit
response is the updated state, its status is no longer requires_action. -/
theorem C5_requires_action_submit (env : Env) (st : PollState) (r : Run) (fuel : Nat)
    (hq : st.runner.status = "requires_action")
    (hs : env.submit st.submitIdx = some r)
    (hr : r.status ≠ "requires_action") :
    pollBody env st = .next [.runSnapshot r] { st with submitIdx := st.submitIdx + 1 } ∧
    (pollLoop env st (fuel + 1)).1.head? = some (.runSnapshot r) ∧
    r.status ≠ "requires_action" := by
  have hb : pollBody env st = .next [.runSnapshot r] { st with submitIdx := st.submitIdx + 1 } := by
    rw [pollBody]
    rw [show (st.runner.status == "requires_action") = true by rw [hq]; rfl]
    simp [hs]
  refine ⟨hb, ?_, hr⟩
  rw [pollLoop]
  rw [show isTerminal st.runner.status = false by rw [hq]; rfl]
  rw [hb]
  rfl

/-- Scenario C5 poll state: the run has paused for tool outputs. -/
def stC5 : PollState := ⟨⟨"r1", "requires_action", "t1"⟩, 1, 0, 0⟩

/-- Scenario C5 remote service: submitting the outputs returns the run in
status in_progress. -/
def envC5 : Env :=
  ⟨fun _ => none, fun _ => some ⟨"r1", "in_progress", "t1"⟩, fun _ => none⟩

/-- C5 (witness): the theorem at the concrete requires_action scenario. -/
theorem C5_witness :
    pollBody envC5 stC5 = .next [.runSnapshot ⟨"r1", "in_progress", "t1"⟩]
      { stC5 with submitIdx := 1 } ∧
    (pollLoop envC5 stC5 1).1.head? = some (.runSnapshot ⟨"r1", "in_progress", "t1"⟩) ∧
    (⟨"r1", "in_progress", "t1"⟩ : Run).status ≠ "requires_action" :=
  C5_requires_action_submit envC5 stC5 ⟨"r1", "in_progress", "t1"⟩ 0 rfl rfl (by decide)

/-- A run value the remote service actually returned, through some fetch or
some tool-output submission. -/
def RunFromEnv (env : Env) (r : Run) : Prop :=
  (∃ i, env.fetch i = some r) ∨ (∃ i, env.submit i = some r)

/-- An event that is the serialization of a state or sub-step returned by
the remote service. -/
def EventFromEnv (env : Env) (ev : Event) : Prop :=
  (∃ r, RunFromEnv env r ∧ ev = .runSnapshot r) ∨
  (∃ i steps s, env.listSteps i = some steps ∧ s ∈ steps ∧ ev = .stepData s)

/-- Every event produced by one loop-body execution comes from the remote
service, and when the loop continues the successor state's runner still
does, provided the current runner does. -/
theorem pollBody_from_env (env : Env) (st : PollState) (h : RunFromEnv env st.runner) :
    ∀ res, pollBody env st = res →
      match res with
      | .halt evs => ∀ ev ∈ evs, EventFromEnv env ev
      | .next evs st' => (∀ ev ∈ evs, EventFromEnv env ev) ∧ RunFromEnv env st'.runner := by
  intro res hres
  rw [pollBody] at hres
  split at hres
  · -- requires_action branch
    rcases hsub : env.submit st.submitIdx with _ | run <;> rw [hsub] at hres
    · subst hres
      intro ev hev
      cases hev
    · subst hres
      refine ⟨?_, h⟩
      intro ev hev
      rw [List.mem_singleton] at hev
      exact Or.inl ⟨run, Or.inr ⟨_, hsub⟩, hev⟩
  · split at hres
    · -- cancelling branch
      rcases hsteps : env.listSteps st.stepsIdx with _ | steps <;> rw [hsteps] at hres
      · subst hres
        intro ev hev
        cases hev
      · subst hres
        refine ⟨?_, h⟩
        intro ev hev
        rw [List.mem_map] at hev
        obtain ⟨s, hsmem, rfl⟩ := hev
        exact Or.inr ⟨_, steps, s, hsteps, hsmem, rfl⟩
    · split at hres
      · -- queued branch
        subst hres
        refine ⟨?_, h⟩
        intro ev hev
        rw [List.mem_singleton] at hev
        exact Or.inl ⟨st.runner, h, hev⟩
      · split at hres
        · -- in_progress branch
          rcases hsteps : env.listSteps st.stepsIdx with _ | steps <;> rw [hsteps] at hres
          · subst hres
            intro ev hev
            cases hev
          · subst hres
            refine ⟨?_, h⟩
            intro ev hev
            rw [List.mem_map] at hev
            obtain ⟨s, hsmem, rfl⟩ := hev
            exact Or.inr ⟨_, steps, s, hsteps, hsmem, rfl⟩
        · split at hres
          · -- completed branch (dead in practice)
            rcases hsteps : env.listSteps st.stepsIdx with _ | steps <;> rw [hsteps] at hres
            · subst hres
              intro ev hev
              cases hev
            · subst hres
              refine ⟨?_, h⟩
              intro ev hev
              rw [List.mem_map] at hev
              obtain ⟨s, hsmem, rfl⟩ := hev
              exact Or.inr ⟨_, steps, s, hsteps, hsmem, rfl⟩
          · split at hres
            · -- failed/cancelled/expired branch (dead in practice)
              subst hres
              intro ev hev
              rw [List.mem_singleton] at hev
              exact Or.inl ⟨st.runner, h, hev⟩
            · -- fallback branch
              rcases hfetch : env.fetch st.fetchIdx with _ | r <;> rw [hfetch] at hres
              · subst hres
                intro ev hev
                cases hev
              · subst hres
                refine ⟨?_, Or.inl ⟨_, hfetch⟩⟩
                intro ev hev
                rw [List.mem_singleton] at hev
                exact Or.inl ⟨r, Or.inl ⟨_, hfetch⟩, hev⟩

/-- Every event emitted by the fuel-indexed loop comes from the remote
service, provided the current runner does. -/
theorem pollLoop_from_env (env : Env) :
    ∀ fuel st, RunFromEnv env st.runner →
      ∀ ev ∈ (pollLoop env st fuel).1, EventFromEnv env ev := by
  intro fuel
  induction fuel with
  | zero =>
    intro st h ev hev
    rw [pollLoop] at hev
    split_ifs at hev <;> simp at hev
  | succ fuel IH =>
    intro st h ev hev
    rw [pollLoop] at hev
    split_ifs at hev with hc
    · simp at hev
    · revert hev
      rcases hpb : pollBody env st with ⟨evs, st'⟩ | evs
      · have hp := pollBody_from_env env st h _ hpb
        dsimp only at hp ⊢
        intro hev
        rw [List.mem_append] at hev
        rcases hev with hev | hev
        · exact hp.1 ev hev
        · exact IH st' hp.2 ev hev
      · have hp := pollBody_from_env env st h _ hpb
        dsimp only at hp ⊢
        exact fun hev => hp ev hev

/-- C8: every event emitted by the poll stream — for every remote-service
behaviour, every fuel bound, and also when a call's failure aborts the
stream — is the serialization of a run state or sub-step actually returned
by the remote service for that run; in particular the poller never
fabricates a terminal status. -/
theorem C8_no_fabrication (env : Env) (fuel : Nat) :
    ∀ ev ∈ (run_events env fuel).1, EventFromEnv env ev := by
  intro ev hev
  rw [run_events] at hev
  revert hev
  rcases hfetch : env.fetch 0 with _ | r
  · dsimp only
    intro hev
    cases hev
  · dsimp only
    exact fun hev => pollLoop_from_env env fuel _ (Or.inl ⟨0, hfetch⟩) ev hev

/-- C8 (witness): the single event of one iteration of scenario C3 is the
queued snapshot the service returned. -/
theorem C8_witness : EventFromEnv envC3 (.runSnapshot queuedRun) :=
  C8_no_fabrication envC3 1 (.runSnapshot queuedRun) (by decide)

/-! ## Claim theorems for chunker and use_image -/

/-- The empty sequence has no chunk positions. -/
theorem chunker_nil {α : Type} (size : Nat) (h : 0 < size) :
    chunker ([] : List α) size = [] := by
  unfold chunker
  rw [show ((List.length ([] : List α)) + size - 1) / size = 0 from by
    simp only [List.length_nil, Nat.zero_add]
    exact Nat.div_eq_of_lt (by omega)]
  rfl

/-- Shifting the slice positions by one stride is the same as slicing the
dropped sequence at the unshifted positions. -/
theorem range'_shift_map {α : Type} (l : List α) (size : Nat) :
    ∀ (k s : Nat),
      (List.range' (s + size) k size).map (fun pos => (l.drop pos).take size)
        = (List.range' s k size).map (fun pos => ((l.drop size).drop pos).take size) := by
  intro k
  induction k with
  | zero => intro s; rfl
  | succ k IH =>
    intro s
    rw [List.range'_succ, List.range'_succ, List.map_cons, List.map_cons]
    congr 1
    · rw [List.drop_drop]
      congr 2
      omega
    · exact IH (s + size)

/-- Unfolding the chunker by one chunk: for a non-empty sequence the chunk
list is the first size-slice followed by the chunks of the rest. -/
theorem chunker_cons {α : Type} (seq : List α) (size : Nat) (h : 0 < size)
    (hne : seq ≠ []) :
    chunker seq size = seq.take size :: chunker (seq.drop size) size := by
  have hn : 0 < seq.length := List.length_pos.mpr hne
  have hcount : (seq.length + size - 1) / size = (seq.length - 1) / size + 1 := by
    rw [show seq.length + size - 1 = (seq.length - 1) + size from by omega]
    exact Nat.add_div_right _ h
  have hdrop : ((seq.drop size).length + size - 1) / size = (seq.length - 1) / size := by
    rw [List.length_drop]
    by_cases hs : size < seq.length
    · rw [show seq.length - size + size - 1 = seq.length - 1 from by omega]
    · rw [show seq.length - size = 0 from by omega]
      rw [Nat.div_eq_of_lt (by omega), Nat.div_eq_of_lt (by omega)]
  unfold chunker
  rw [hcount, hdrop, List.range'_succ, List.map_cons, List.drop_zero, Nat.zero_add]
  have hs := range'_shift_map seq size ((seq.length - 1) / size) 0
  rw [Nat.zero_add] at hs
  rw [hs]

/-- C9: for every sequence and every positive chunk size, concatenating the
chunks of chunker in order yields exactly the sequence, every chunk is
non-empty, and every chunk except possibly the last has length exactly
size. -/
theorem C9_chunker (α : Type) (seq : List α) (size : Nat) (h : 0 < size) :
    (chunker seq size).flatten = seq ∧
    (∀ c ∈ chunker seq size, c ≠ []) ∧
    (∀ c ∈ (chunker seq size).dropLast, c.length = size) := by
  suffices H : ∀ (n : Nat) (l : List α), l.length ≤ n →
      (chunker l size).flatten = l ∧
      (∀ c ∈ chunker l size, c ≠ []) ∧
      (∀ c ∈ (chunker l size).dropLast, c.length = size) from
    H seq.length seq le_rfl
  intro n
  induction n with
  | zero =>
    intro l hl
    have hnil : l = [] := List.length_eq_zero.mp (by omega)
    subst hnil
    rw [chunker_nil size h]
    refine ⟨rfl, ?_, ?_⟩ <;> intro c hc <;> simp at hc
  | succ n IH =>
    intro l hl
    by_cases hne : l = []
    · subst hne
      rw [chunker_nil size h]
      refine ⟨rfl, ?_, ?_⟩ <;> intro c hc <;> simp at hc
    · rw [chunker_cons l size h hne]
      have hlen : (l.drop size).length ≤ n := by
        rw [List.length_drop]
        have : 0 < l.length := List.length_pos.mpr hne
        omega
      obtain ⟨IH1, IH2, IH3⟩ := IH (l.drop size) hlen
      refine ⟨?_, ?_, ?_⟩
      · rw [List.flatten_cons, IH1]
        exact List.take_append_drop size l
      · intro c hc
        rcases List.mem_cons.mp hc with rfl | hc
        · have : 0 < (l.take size).length := by
            rw [List.length_take]
            have : 0 < l.length := List.length_pos.mpr hne
            omega
          exact List.ne_nil_of_length_pos this
        · exact IH2 c hc
      · intro c hc
        cases hrest : chunker (l.drop size) size with
        | nil =>
          rw [hrest] at hc
          cases hc
        | cons a as =>
          rw [hrest] at hc
          rw [List.dropLast_cons₂] at hc
          rcases List.mem_cons.mp hc with rfl | hc
          · have hdne : l.drop size ≠ [] := by
              intro hd
              rw [hd, chunker_nil size h] at hrest
              cases hrest
            have hsz : size < l.length := by
              by_contra hcon
              exact hdne (List.drop_eq_nil_iff.mpr (by omega))
            rw [List.length_take]
            omega
          · rw [← hrest] at hc
            exact IH3 c hc

/-- C9 (witness): the theorem at the concrete sequence [1, 2, 3, 4, 5] with
chunk size 2. -/
theorem C9_witness :
    (chunker [1, 2, 3, 4, 5] 2).flatten = [1, 2, 3, 4, 5] ∧
    (∀ c ∈ chunker [1, 2, 3, 4, 5] 2, c ≠ []) ∧
    (∀ c ∈ (chunker [1, 2, 3, 4, 5] 2).dropLast, c.length = 2) :=
  C9_chunker Nat [1, 2, 3, 4, 5] 2 (by decide)

/-- The accumulation loop raises ValueError as soon as the remaining items
contain one with no b64_json, regardless of the accumulator and of that
item's url field. -/
theorem use_imageLoop_err :
    ∀ (data : List ImageObj) (acc : List String),
      (∃ i ∈ data, i.b64_json = none) →
      use_imageLoop acc data
        = .error ⟨PyClass.ValueErrorCls, "Expected image output to be a string", 0⟩ := by
  intro data
  induction data with
  | nil =>
    rintro acc ⟨i, hi, _⟩
    cases hi
  | cons x rest IH =>
    rintro acc ⟨i, hi, hnone⟩
    rcases hx : x.b64_json with _ | b
    · simp [use_imageLoop, hx]
    · rcases List.mem_cons.mp hi with rfl | hrest
      · rw [hx] at hnone
        cases hnone
      · simp only [use_imageLoop, hx]
        exact IH _ ⟨i, hrest, hnone⟩

/-- C10: use_image raises ValueError whenever some returned item has no
b64_json — even if that item carries a url — and consequently returns
normally only when every returned item has a b64_json. -/
theorem C10_use_image (data : List ImageObj) :
    ((∃ i ∈ data, i.b64_json = none) →
      use_image data
        = .error ⟨PyClass.ValueErrorCls, "Expected image output to be a string", 0⟩) ∧
    (∀ res, use_image data = .ok res → ∀ i ∈ data, i.b64_json ≠ none) := by
  constructor
  · exact fun hex => use_imageLoop_err data [] hex
  · intro res hok i hi hnone
    rw [use_image, use_imageLoop_err data [] ⟨i, hi, hnone⟩] at hok
    cases hok

/-- C10 (witness): a single item carrying a url but no b64_json makes
use_image raise ValueError. -/
theorem C10_witness :
    use_image [⟨some "http://img.example/1.png", none⟩]
      = .error ⟨PyClass.ValueErrorCls, "Expected image output to be a string", 0⟩ :=
  (C10_use_image [⟨some "http://img.example/1.png", none⟩]).1
    ⟨⟨some "http://img.example/1.png", none⟩, List.mem_singleton.mpr rfl, rfl⟩

end Swagchain
